import Mathlib

/-
Shallow embedding of src/webgpu-engine.js: a minimal WebGPU demo that acquires
a device, uploads one fixed triangle, and redraws every animation frame with a
time-driven 2D uniform offset.  Machine floats are modelled as real numbers,
logical CSS sizes as rationals, GPU objects as presence flags, and the commands
the device queue receives as an explicit event trace.
-/

/-- The canvas backing store: pixel width and height (canvas.width and
canvas.height in the source). -/
structure Canvas where
  width : Nat
  height : Nat
  deriving DecidableEq

/-- A surface is presentable exactly when both backing dimensions are nonzero;
render skips the frame otherwise (src line 232). -/
def presentable (c : Canvas) : Bool :=
  c.width != 0 && c.height != 0

/-- The ResizeObserver callback body (src lines 75-86): only a notification with
both logical dimensions positive updates the backing store, each dimension
becoming round(logicalSize * dpr); any other notification changes nothing. -/
def onResize (c : Canvas) (w h dpr : ℚ) : Canvas :=
  if 0 < w ∧ 0 < h then
    ⟨(round (w * dpr)).toNat, (round (h * dpr)).toNat⟩
  else
    c

/-- The host canvas element: its default backing size (HTML attributes) and the
logical bounding rect reported by getBoundingClientRect. -/
structure CanvasElem where
  attrWidth : Nat
  attrHeight : Nat
  rectWidth : ℚ
  rectHeight : ℚ

/-- The browser environment initializeWebGPU runs against: which WebGPU objects
are obtainable and whether the shader program compiles. -/
structure Env where
  webgpuSupported : Bool
  adapterAvailable : Bool
  deviceAvailable : Bool
  canvasElem : Option CanvasElem
  contextAvailable : Bool
  dpr : ℚ
  shaderCompiles : Bool

/-- The two device buffers of the demo. -/
inductive BufferId where
  | vertex
  | uniform
  deriving DecidableEq

/-- RGBA clear value of a render pass color attachment. -/
structure ClearColor where
  r : ℚ
  g : ℚ
  b : ℚ
  a : ℚ
  deriving DecidableEq

/-- The fixed dark-blue background (src line 259). -/
def clearColor : ClearColor := ⟨0.1, 0.1, 0.2, 1.0⟩

/-- Host copy of the uniform array: the offset (x, y) plus two padding floats
(src lines 34-37). -/
structure Uniforms where
  x : ℝ
  y : ℝ
  pad0 : ℝ
  pad1 : ℝ

/-- The full float contents of the uniform array, as uploaded every write
(4 floats, i.e. 16 bytes). -/
def Uniforms.toList (u : Uniforms) : List ℝ :=
  [u.x, u.y, u.pad0, u.pad1]

/-- The host-side data object (src lines 25-38). -/
structure DataState where
  vertices : List ℝ
  uniforms : Uniforms

/-- The fixed triangle vertex array (src lines 26-31), interleaved as
pos.x, pos.y, color.r, color.g, color.b, color.a per vertex. -/
noncomputable def verticesInit : List ℝ :=
  [0.0, 0.5, 1.0, 0.0, 0.0, 1.0,
   -0.5, -0.5, 0.0, 1.0, 0.0, 1.0,
   0.5, -0.5, 0.0, 0.0, 1.0, 1.0]

/-- The initial uniform array (src lines 34-37): offset (0, 0) and zero padding. -/
noncomputable def uniformsInit : Uniforms := ⟨0, 0, 0, 0⟩

/-- The initial host data object. -/
noncomputable def dataInit : DataState := ⟨verticesInit, uniformsInit⟩

/-- Bytes per element of a Float32Array. -/
def bytesPerFloat : Nat := 4

/-- SIZEOF_UNIFORMS, i.e. data.uniforms.byteLength (src line 39): 16 bytes. -/
noncomputable def SIZEOF_UNIFORMS : Nat := bytesPerFloat * uniformsInit.toList.length

/-- One command observed by the device: queue buffer writes, render pass
recording, and command buffer submission. -/
inductive Event where
  | queueWriteBuffer (buf : BufferId) (offset : Nat) (floats : List ℝ)
  | beginRenderPass (clear : ClearColor)
  | setPipeline
  | setVertexBuffer (slot : Nat)
  | setBindGroup (index : Nat)
  | draw (vertexCount instanceCount firstVertex firstInstance : Nat)
  | endPass
  | queueSubmit (buffers : Nat)

/-- Whether an event is a queue.writeBuffer call. -/
def Event.isWriteBuffer : Event → Bool
  | .queueWriteBuffer _ _ _ => true
  | _ => false

/-- Whether an event is a queue.writeBuffer call targeting the vertex buffer. -/
def Event.isVertexWrite : Event → Bool
  | .queueWriteBuffer .vertex _ _ => true
  | _ => false

/-- The buffer a write event targets, if any. -/
def Event.writeTarget : Event → Option BufferId
  | .queueWriteBuffer b _ _ => some b
  | _ => none

/-- Whether an event begins a render pass. -/
def Event.isBeginPass : Event → Bool
  | .beginRenderPass _ => true
  | _ => false

/-- Whether an event is a draw call. -/
def Event.isDraw : Event → Bool
  | .draw _ _ _ _ => true
  | _ => false

/-- Whether an event is a queue.submit call. -/
def Event.isSubmit : Event → Bool
  | .queueSubmit _ => true
  | _ => false

/-- The gpu state object (src lines 12-22).  A null field is modelled as false
or none; the buffer fields carry their allocated byte size once created. -/
structure GpuState where
  adapter : Bool
  device : Bool
  canvas : Option Canvas
  context : Bool
  presentationFormat : Bool
  renderPipeline : Bool
  vertexBuffer : Option Nat
  uniformBuffer : Option Nat
  bindGroup : Bool

/-- All fields null, as at script load. -/
def emptyGpu : GpuState :=
  ⟨false, false, none, false, false, false, none, none, false⟩

/-- context.getCurrentTexture(): fails on a zero-size surface and yields the
current surface texture otherwise. -/
def getCurrentTexture (c : Canvas) : Except String Unit :=
  if c.width = 0 ∨ c.height = 0 then .error ("zero-size surface") else .ok ()

/-- The per-frame offset written into uniform entries 0 and 1
(src lines 240-241): (sin(t) * 0.3, cos(t) * 0.3). -/
noncomputable def uniformAt (t : ℝ) : ℝ × ℝ :=
  (Real.sin t * 0.3, Real.cos t * 0.3)

/-- The uniform array contents after the in-place update of entries 0 and 1;
entries 2 and 3 are untouched. -/
noncomputable def renderUniforms (t : ℝ) (d : DataState) : Uniforms :=
  ⟨(uniformAt t).1, (uniformAt t).2, d.uniforms.pad0, d.uniforms.pad1⟩

/-- The queue commands of one non-skipped frame (src lines 244-281). -/
noncomputable def renderTrace (t : ℝ) (d : DataState) : List Event :=
  [.queueWriteBuffer .uniform 0 (renderUniforms t d).toList,
   .beginRenderPass clearColor,
   .setPipeline,
   .setVertexBuffer 0,
   .setBindGroup 0,
   .draw 3 1 0 0,
   .endPass,
   .queueSubmit 1]

/-- The result of one render() call: the host data afterwards, the commands the
device observed, and a thrown exception if any. -/
structure RenderResult where
  data : DataState
  events : List Event
  error : Option String

/-- The render function (src lines 228-282), with the clock reading
performance.now() / 1000 passed in as the argument time. -/
noncomputable def render (gpu : GpuState) (d : DataState) (time : ℝ) : RenderResult :=
  match gpu.canvas with
  | none => ⟨d, [], none⟩
  | some canvas =>
    if gpu.device = false ∨ gpu.context = false ∨ gpu.renderPipeline = false ∨
        gpu.vertexBuffer = none then
      ⟨d, [], none⟩
    else if canvas.width = 0 ∨ canvas.height = 0 then
      ⟨d, [], none⟩
    else
      let d1 : DataState := ⟨d.vertices, renderUniforms time d⟩
      match getCurrentTexture canvas with
      | .error e => ⟨d1, [.queueWriteBuffer .uniform 0 (renderUniforms time d).toList], some e⟩
      | .ok _ => ⟨d1, renderTrace time d, none⟩

/-- The outcome of initializeWebGPU: the returned boolean, the gpu and data
objects afterwards, and the queue commands issued during initialization. -/
structure InitOutcome where
  success : Bool
  gpu : GpuState
  data : DataState
  events : List Event

/-- initializeWebGPU (src lines 51-223).  A missing navigator.gpu throws before
the try block, hence the uncaught .error; every failure inside the try block is
caught and reported as a false return value, with the partially assigned gpu
state left in place. -/
noncomputable def initializeWebGPU (env : Env) (d0 : DataState) : Except String InitOutcome :=
  if env.webgpuSupported = false then
    .error ("WebGPU not supported on this browser.")
  else
    let g1 : GpuState := { emptyGpu with adapter := env.adapterAvailable }
    if env.adapterAvailable = false then .ok ⟨false, g1, d0, []⟩
    else
      let g2 : GpuState := { g1 with device := env.deviceAvailable }
      if env.deviceAvailable = false then .ok ⟨false, g2, d0, []⟩
      else
        match env.canvasElem with
        | none => .ok ⟨false, g2, d0, []⟩
        | some elem =>
          let dpr : ℚ := if env.dpr = 0 then 1 else env.dpr
          let c1 : Canvas :=
            onResize ⟨elem.attrWidth, elem.attrHeight⟩ elem.rectWidth elem.rectHeight dpr
          let g3 : GpuState := { g2 with canvas := some c1 }
          if env.contextAvailable = false then .ok ⟨false, g3, d0, []⟩
          else
            let g4 : GpuState := { g3 with context := true, presentationFormat := true }
            let g5 : GpuState :=
              { g4 with vertexBuffer := some (bytesPerFloat * d0.vertices.length) }
            let ev1 : List Event := [.queueWriteBuffer .vertex 0 d0.vertices]
            let g6 : GpuState := { g5 with uniformBuffer := some SIZEOF_UNIFORMS }
            let ev2 : List Event := ev1 ++ [.queueWriteBuffer .uniform 0 d0.uniforms.toList]
            if env.shaderCompiles = false then .ok ⟨false, g6, d0, ev2⟩
            else
              let g7 : GpuState := { g6 with renderPipeline := true, bindGroup := true }
              .ok ⟨true, g7, d0, ev2⟩

/-- The observable result of the startup IIFE (src lines 293-304): whether the
game loop started and the state it runs with. -/
structure Startup where
  loopStarted : Bool
  gpu : GpuState
  data : DataState

/-- The async startup IIFE: runGameLoop starts exactly when initializeWebGPU
resolves to true; a rejected initialization propagates. -/
noncomputable def startup (env : Env) : Except String Startup :=
  match initializeWebGPU env dataInit with
  | .error e => .error e
  | .ok o => .ok ⟨o.success, o.gpu, o.data⟩

/-- A 640 by 480 canvas element at devicePixelRatio 1, with the default 300 by
150 backing store before initial sizing. -/
def goodCanvasElem : CanvasElem := ⟨300, 150, 640, 480⟩

/-- An environment in which every initialization step succeeds. -/
def goodEnv : Env :=
  { webgpuSupported := true, adapterAvailable := true, deviceAvailable := true,
    canvasElem := some goodCanvasElem, contextAvailable := true, dpr := 1,
    shaderCompiles := true }

/-- An environment in which shader compilation fails. -/
def shaderFailEnv : Env :=
  { goodEnv with shaderCompiles := false }

/-- The gpu state after successful initialization against goodEnv. -/
noncomputable def readyGpu : GpuState :=
  { adapter := true, device := true, canvas := some ⟨640, 480⟩, context := true,
    presentationFormat := true, renderPipeline := true,
    vertexBuffer := some (bytesPerFloat * dataInit.vertices.length),
    uniformBuffer := some SIZEOF_UNIFORMS, bindGroup := true }

/-- The queue commands issued during successful initialization: one vertex
upload, then one uniform upload. -/
noncomputable def goodInitEvents : List Event :=
  [.queueWriteBuffer .vertex 0 dataInit.vertices,
   .queueWriteBuffer .uniform 0 dataInit.uniforms.toList]

/-- A ready state whose canvas has zero width. -/
noncomputable def zeroWidthGpu : GpuState :=
  { readyGpu with canvas := some ⟨0, 480⟩ }

/-- A 4-component float vector (vec4 of f32). -/
structure Vec4 where
  x : ℝ
  y : ℝ
  z : ℝ
  w : ℝ

/-- The uniform struct Globals of the WGSL module (src lines 126-128): one
2-component offset. -/
structure Globals where
  offset : ℝ × ℝ

/-- The vertex stage output struct (src lines 131-134). -/
structure VertexOutput where
  position : Vec4
  color : Vec4

/-- The binding group of u_globals in the WGSL module (src line 137). -/
def u_globals_group : Nat := 0

/-- The binding index of u_globals in the WGSL module (src line 137). -/
def u_globals_binding : Nat := 0

/-- vs_main (src lines 140-150): the clip position is
vec4(in_position + u_globals.offset, 0, 1) and the color passes through. -/
noncomputable def vs_main (u_globals : Globals) (in_position : ℝ × ℝ) (in_color : Vec4) :
    VertexOutput :=
  ⟨⟨in_position.1 + u_globals.offset.1, in_position.2 + u_globals.offset.2, 0, 1⟩,
   in_color⟩

/-- fs_main (src lines 152-155): outputs the interpolated color unchanged. -/
def fs_main (in_color : Vec4) : Vec4 :=
  in_color

/-- The vertex attribute formats used by the pipeline. -/
inductive VertexFormat where
  | float32x2
  | float32x4
  deriving DecidableEq

/-- One entry of vertexBufferLayout.attributes. -/
structure VertexAttribute where
  shaderLocation : Nat
  offset : Nat
  format : VertexFormat
  deriving DecidableEq

/-- The shape of vertexBufferLayout (src lines 163-169). -/
structure VertexLayout where
  arrayStride : Nat
  attributes : List VertexAttribute
  deriving DecidableEq

/-- vertexBufferLayout (src lines 163-169): interleaved, stride 6 * 4 bytes,
position at offset 0, color at offset 2 * 4. -/
def vertexBufferLayout : VertexLayout :=
  ⟨6 * 4, [⟨0, 0, .float32x2⟩, ⟨1, 2 * 4, .float32x4⟩]⟩

/-- Helper: render is a no-op when any of the five guarded objects is missing
(src lines 229-231). -/
theorem render_not_ready (gpu : GpuState) (d : DataState) (t : ℝ)
    (h : gpu.device = false ∨ gpu.context = false ∨ gpu.renderPipeline = false ∨
         gpu.canvas = none ∨ gpu.vertexBuffer = none) :
    render gpu d t = ⟨d, [], none⟩ := by
  cases hc : gpu.canvas with
  | none => simp [render, hc]
  | some c =>
    rcases h with h | h | h | h | h
    · simp [render, hc, h]
    · simp [render, hc, h]
    · simp [render, hc, h]
    · rw [hc] at h; exact Option.noConfusion h
    · simp [render, hc, h]

/-- Helper: render skips the frame when the canvas has a zero dimension
(src lines 232-235). -/
theorem render_zero_size (gpu : GpuState) (d : DataState) (t : ℝ) (c : Canvas)
    (hc : gpu.canvas = some c) (h : c.width = 0 ∨ c.height = 0) :
    render gpu d t = ⟨d, [], none⟩ := by
  by_cases hg : gpu.device = false ∨ gpu.context = false ∨ gpu.renderPipeline = false ∨
      gpu.vertexBuffer = none
  · exact render_not_ready gpu d t (by tauto)
  · rcases h with h | h <;> simp [render, hc, hg, h]

/-- Helper: the behavior of render in the ready, presentable case. -/
theorem render_ready (gpu : GpuState) (d : DataState) (t : ℝ) (c : Canvas)
    (hc : gpu.canvas = some c) (hdev : gpu.device = true) (hctx : gpu.context = true)
    (hpl : gpu.renderPipeline = true) (hvb : gpu.vertexBuffer ≠ none)
    (hw : c.width ≠ 0) (hh : c.height ≠ 0) :
    render gpu d t = ⟨⟨d.vertices, renderUniforms t d⟩, renderTrace t d, none⟩ := by
  simp [render, hc, hdev, hctx, hpl, hvb, hw, hh, getCurrentTexture]

/-- Helper: render never raises an exception. -/
theorem render_no_error (gpu : GpuState) (d : DataState) (t : ℝ) :
    (render gpu d t).error = none := by
  cases hc : gpu.canvas with
  | none => simp [render, hc]
  | some c =>
    simp only [render, hc]
    split
    · rfl
    · split
      · rfl
      · rename_i hz
        simp [getCurrentTexture, hz]

/-- Helper: every render call either skips with no effect or performs the full
frame. -/
theorem render_cases (gpu : GpuState) (d : DataState) (t : ℝ) :
    render gpu d t = ⟨d, [], none⟩ ∨
    render gpu d t = ⟨⟨d.vertices, renderUniforms t d⟩, renderTrace t d, none⟩ := by
  cases hc : gpu.canvas with
  | none => exact Or.inl (render_not_ready gpu d t (Or.inr (Or.inr (Or.inr (Or.inl hc)))))
  | some c =>
    cases hdev : gpu.device with
    | false => exact Or.inl (render_not_ready gpu d t (Or.inl hdev))
    | true =>
      cases hctx : gpu.context with
      | false => exact Or.inl (render_not_ready gpu d t (Or.inr (Or.inl hctx)))
      | true =>
        cases hpl : gpu.renderPipeline with
        | false => exact Or.inl (render_not_ready gpu d t (Or.inr (Or.inr (Or.inl hpl))))
        | true =>
          cases hvb : gpu.vertexBuffer with
          | none =>
            exact Or.inl (render_not_ready gpu d t (Or.inr (Or.inr (Or.inr (Or.inr hvb)))))
          | some n =>
            by_cases hz : c.width = 0 ∨ c.height = 0
            · exact Or.inl (render_zero_size gpu d t c hc hz)
            · exact Or.inr (render_ready gpu d t c hc hdev hctx hpl
                (by rw [hvb]; exact fun hx => Option.noConfusion hx)
                (fun hx => hz (Or.inl hx)) (fun hx => hz (Or.inr hx)))

/-- Helper: initialization against goodEnv succeeds with the expected state. -/
theorem init_goodEnv :
    initializeWebGPU goodEnv dataInit = .ok ⟨true, readyGpu, dataInit, goodInitEvents⟩ := by
  norm_num [initializeWebGPU, goodEnv, goodCanvasElem, emptyGpu, onResize, readyGpu,
    goodInitEvents, round_eq]
  exact ⟨rfl, rfl⟩

/-- C1 counterexample: at t = 0 the computed offset is (0, 0.3), not (0, 0),
because cos 0 = 1. -/
theorem uniform_offset_zero_cex : uniformAt 0 ≠ (0, 0) := by
  intro h
  have h2 := congrArg Prod.snd h
  norm_num [uniformAt, Real.cos_zero] at h2

/-- C1 (amended): for every time t the per-frame uniform offset equals
(0.3 sin t, 0.3 cos t), its Euclidean magnitude is at most 0.3 for all t, and
at t = 0 the offset is (0, 0.3). -/
theorem uniform_offset_formula (t : ℝ) :
    uniformAt t = (0.3 * Real.sin t, 0.3 * Real.cos t) ∧
    Real.sqrt ((uniformAt t).1 ^ 2 + (uniformAt t).2 ^ 2) ≤ 0.3 ∧
    uniformAt 0 = (0, 0.3) := by
  refine ⟨?_, ?_, ?_⟩
  · simp only [uniformAt, Prod.mk.injEq]
    exact ⟨mul_comm _ _, mul_comm _ _⟩
  · have key : (uniformAt t).1 ^ 2 + (uniformAt t).2 ^ 2 = (0.3 : ℝ) ^ 2 := by
      simp only [uniformAt]
      calc (Real.sin t * 0.3) ^ 2 + (Real.cos t * 0.3) ^ 2
          = (Real.sin t ^ 2 + Real.cos t ^ 2) * (0.3 : ℝ) ^ 2 := by ring
        _ = (0.3 : ℝ) ^ 2 := by rw [Real.sin_sq_add_cos_sq, one_mul]
    rw [key, Real.sqrt_sq (by norm_num : (0:ℝ) ≤ 0.3)]
  · norm_num [uniformAt, Real.sin_zero, Real.cos_zero]

/-- C3 counterexample: a resize notification with zero width is ignored, so a
surface sized 640 by 480 stays presentable, contradicting the claimed switch to
a non-presentable state. -/
theorem resize_zero_keeps_presentable :
    presentable (onResize ⟨640, 480⟩ 0 480 1) = true := by decide

/-- C3 (amended): a resize notification with a zero dimension is ignored,
leaving the backing size and hence presentability unchanged; a resize with both
dimensions positive sets the backing size to round(logicalSize * dpr), and a
subsequent onResize(640, 480) at dpr 1 yields a presentable surface. -/
theorem onResize_spec (c : Canvas) (w h dpr : ℚ) :
    (¬(0 < w ∧ 0 < h) → onResize c w h dpr = c) ∧
    ((0 < w ∧ 0 < h) →
      onResize c w h dpr = ⟨(round (w * dpr)).toNat, (round (h * dpr)).toNat⟩) ∧
    presentable (onResize c 640 480 1) = true := by
  refine ⟨fun hn => by simp [onResize, hn], fun hp => by simp [onResize, hp], ?_⟩
  have hp : (0:ℚ) < 640 ∧ (0:ℚ) < 480 := by norm_num
  unfold onResize
  rw [if_pos hp]
  have h1 : round ((640:ℚ) * 1) = 640 := by norm_num [round_eq]
  have h2 : round ((480:ℚ) * 1) = 480 := by norm_num [round_eq]
  rw [h1, h2]
  rfl

/-- C3 witness: a zero-width resize leaves a 640 by 480 surface unchanged, and
a positive resize yields a presentable surface. -/
theorem onResize_spec_witness :
    onResize ⟨640, 480⟩ 0 480 1 = ⟨640, 480⟩ ∧
    presentable (onResize ⟨640, 480⟩ 640 480 1) = true :=
  ⟨(onResize_spec ⟨640, 480⟩ 0 480 1).1 (by norm_num),
   (onResize_spec ⟨640, 480⟩ 0 480 1).2.2⟩

/-- C5: with a zero-size canvas, render skips the frame as a transient
non-error, submitting nothing, raising nothing and writing nothing; with
positive dimensions and the pipeline objects present the full frame is
rendered again. -/
theorem render_skips_nonpresentable (gpu : GpuState) (d : DataState) (t : ℝ) (c : Canvas)
    (hc : gpu.canvas = some c) (hz : c.width = 0 ∨ c.height = 0) :
    render gpu d t = ⟨d, [], none⟩ ∧
    ∀ w h : Nat, w ≠ 0 → h ≠ 0 → gpu.device = true → gpu.context = true →
      gpu.renderPipeline = true → gpu.vertexBuffer ≠ none →
      render { gpu with canvas := some ⟨w, h⟩ } d t =
        ⟨⟨d.vertices, renderUniforms t d⟩, renderTrace t d, none⟩ := by
  refine ⟨render_zero_size gpu d t c hc hz, ?_⟩
  intro w h hw hh hdev hctx hpl hvb
  exact render_ready _ d t ⟨w, h⟩ rfl hdev hctx hpl hvb hw hh

/-- C5 witness: a ready state with zero canvas width skips the frame at t = 1,
and renders fully once the canvas is 640 by 480 again. -/
theorem render_skips_nonpresentable_witness :
    render zeroWidthGpu dataInit 1 = ⟨dataInit, [], none⟩ ∧
    render { zeroWidthGpu with canvas := some ⟨640, 480⟩ } dataInit 1 =
      ⟨⟨dataInit.vertices, renderUniforms 1 dataInit⟩, renderTrace 1 dataInit, none⟩ :=
  ⟨(render_skips_nonpresentable zeroWidthGpu dataInit 1 ⟨0, 480⟩ rfl (Or.inl rfl)).1,
   (render_skips_nonpresentable zeroWidthGpu dataInit 1 ⟨0, 480⟩ rfl (Or.inl rfl)).2
     640 480 (by decide) (by decide) rfl rfl rfl (by simp [zeroWidthGpu, readyGpu])⟩

/-- C10: when any of the device, context, render pipeline, canvas or vertex
buffer is missing, render returns at once with no commands, no data change and
no exception; moreover render never raises an exception in any state. -/
theorem render_safe_uninitialized (gpu : GpuState) (d : DataState) (t : ℝ)
    (h : gpu.device = false ∨ gpu.context = false ∨ gpu.renderPipeline = false ∨
         gpu.canvas = none ∨ gpu.vertexBuffer = none) :
    render gpu d t = ⟨d, [], none⟩ ∧
    ∀ (gpu2 : GpuState) (d2 : DataState) (t2 : ℝ), (render gpu2 d2 t2).error = none :=
  ⟨render_not_ready gpu d t h, fun gpu2 d2 t2 => render_no_error gpu2 d2 t2⟩

/-- C10 witness: render on the fresh all-null state is a no-op, and render in
the ready state raises no exception. -/
theorem render_safe_uninitialized_witness :
    render emptyGpu dataInit 0 = ⟨dataInit, [], none⟩ ∧
    (render readyGpu dataInit 2).error = none :=
  ⟨(render_safe_uninitialized emptyGpu dataInit 0 (Or.inl rfl)).1,
   (render_safe_uninitialized emptyGpu dataInit 0 (Or.inl rfl)).2 readyGpu dataInit 2⟩

/-- C7: two render calls in succession with the same time value produce the
same uniform contents and the same device commands; the uniform depends only on
the time argument. -/
theorem render_same_time_same_uniforms (gpu : GpuState) (d : DataState) (t : ℝ) :
    (render gpu (render gpu d t).data t).data.uniforms = (render gpu d t).data.uniforms ∧
    (render gpu (render gpu d t).data t).events = (render gpu d t).events := by
  cases hc : gpu.canvas with
  | none =>
    rw [render_not_ready gpu d t (Or.inr (Or.inr (Or.inr (Or.inl hc))))]
    exact ⟨congrArg (fun r => r.data.uniforms)
        (render_not_ready gpu d t (Or.inr (Or.inr (Or.inr (Or.inl hc))))),
      congrArg (fun r => r.events)
        (render_not_ready gpu d t (Or.inr (Or.inr (Or.inr (Or.inl hc)))))⟩
  | some c =>
    cases hdev : gpu.device with
    | false =>
      rw [render_not_ready gpu d t (Or.inl hdev)]
      exact ⟨congrArg (fun r => r.data.uniforms) (render_not_ready gpu d t (Or.inl hdev)),
        congrArg (fun r => r.events) (render_not_ready gpu d t (Or.inl hdev))⟩
    | true =>
      cases hctx : gpu.context with
      | false =>
        rw [render_not_ready gpu d t (Or.inr (Or.inl hctx))]
        exact ⟨congrArg (fun r => r.data.uniforms)
            (render_not_ready gpu d t (Or.inr (Or.inl hctx))),
          congrArg (fun r => r.events) (render_not_ready gpu d t (Or.inr (Or.inl hctx)))⟩
      | true =>
        cases hpl : gpu.renderPipeline with
        | false =>
          rw [render_not_ready gpu d t (Or.inr (Or.inr (Or.inl hpl)))]
          exact ⟨congrArg (fun r => r.data.uniforms)
              (render_not_ready gpu d t (Or.inr (Or.inr (Or.inl hpl)))),
            congrArg (fun r => r.events)
              (render_not_ready gpu d t (Or.inr (Or.inr (Or.inl hpl))))⟩
        | true =>
          cases hvb : gpu.vertexBuffer with
          | none =>
            rw [render_not_ready gpu d t (Or.inr (Or.inr (Or.inr (Or.inr hvb))))]
            exact ⟨congrArg (fun r => r.data.uniforms)
                (render_not_ready gpu d t (Or.inr (Or.inr (Or.inr (Or.inr hvb))))),
              congrArg (fun r => r.events)
                (render_not_ready gpu d t (Or.inr (Or.inr (Or.inr (Or.inr hvb)))))⟩
          | some n =>
            have hvb2 : gpu.vertexBuffer ≠ none := by
              rw [hvb]; exact fun hx => Option.noConfusion hx
            by_cases hz : c.width = 0 ∨ c.height = 0
            · rw [render_zero_size gpu d t c hc hz]
              exact ⟨congrArg (fun r => r.data.uniforms) (render_zero_size gpu d t c hc hz),
                congrArg (fun r => r.events) (render_zero_size gpu d t c hc hz)⟩
            · have hw : c.width ≠ 0 := fun hx => hz (Or.inl hx)
              have hh : c.height ≠ 0 := fun hx => hz (Or.inr hx)
              rw [render_ready gpu d t c hc hdev hctx hpl hvb2 hw hh]
              rw [render_ready gpu ⟨d.vertices, renderUniforms t d⟩ t c hc hdev hctx hpl
                hvb2 hw hh]
              exact ⟨rfl, rfl⟩

/-- C2: a non-skipped render call records exactly one render pass clearing the
target to (0.1, 0.1, 0.2, 1.0), binds the pipeline, the vertex buffer and the
uniform bind group, issues exactly one draw of 3 vertices and 1 instance, and
submits exactly one command buffer. -/
theorem render_records_single_pass (gpu : GpuState) (d : DataState) (t : ℝ) (c : Canvas)
    (hc : gpu.canvas = some c) (hdev : gpu.device = true) (hctx : gpu.context = true)
    (hpl : gpu.renderPipeline = true) (hvb : gpu.vertexBuffer ≠ none)
    (hw : c.width ≠ 0) (hh : c.height ≠ 0) :
    (render gpu d t).events = renderTrace t d ∧
    Event.beginRenderPass ⟨0.1, 0.1, 0.2, 1.0⟩ ∈ (render gpu d t).events ∧
    Event.setPipeline ∈ (render gpu d t).events ∧
    Event.setVertexBuffer 0 ∈ (render gpu d t).events ∧
    Event.setBindGroup 0 ∈ (render gpu d t).events ∧
    Event.draw 3 1 0 0 ∈ (render gpu d t).events ∧
    Event.queueSubmit 1 ∈ (render gpu d t).events ∧
    (render gpu d t).events.countP Event.isBeginPass = 1 ∧
    (render gpu d t).events.countP Event.isDraw = 1 ∧
    (render gpu d t).events.countP Event.isSubmit = 1 := by
  rw [render_ready gpu d t c hc hdev hctx hpl hvb hw hh]
  refine ⟨rfl, ?_, ?_, ?_, ?_, ?_, ?_, ?_, ?_, ?_⟩ <;>
    simp [renderTrace, clearColor, List.countP_cons, Event.isBeginPass, Event.isDraw,
      Event.isSubmit]

/-- C2 witness: in the initialized 640 by 480 state at t = 0, the frame has
exactly one draw of 3 vertices and 1 instance and one submitted command
buffer. -/
theorem render_records_single_pass_witness :
    (render readyGpu dataInit 0).events.countP Event.isDraw = 1 ∧
    (render readyGpu dataInit 0).events.countP Event.isSubmit = 1 :=
  ⟨(render_records_single_pass readyGpu dataInit 0 ⟨640, 480⟩ rfl rfl rfl rfl
      (by simp [readyGpu]) (by decide) (by decide)).2.2.2.2.2.2.2.2.1,
   (render_records_single_pass readyGpu dataInit 0 ⟨640, 480⟩ rfl rfl rfl rfl
      (by simp [readyGpu]) (by decide) (by decide)).2.2.2.2.2.2.2.2.2⟩

/-- C6: the pipeline consumes stride-24 interleaved vertices (position as two
float32 at offset 0, color as four float32 at offset 8) plus a 2-component
uniform offset at binding 0 of group 0; the vertex stage outputs clip position
(position + offset, 0, 1) and passes color through unchanged; the fragment
stage returns the interpolated color directly. -/
theorem shader_and_layout_contract (g : Globals) (p : ℝ × ℝ) (c : Vec4) :
    vertexBufferLayout.arrayStride = 24 ∧
    vertexBufferLayout.attributes =
      [⟨0, 0, VertexFormat.float32x2⟩, ⟨1, 8, VertexFormat.float32x4⟩] ∧
    u_globals_group = 0 ∧
    u_globals_binding = 0 ∧
    vs_main g p c = ⟨⟨p.1 + g.offset.1, p.2 + g.offset.2, 0, 1⟩, c⟩ ∧
    fs_main c = c :=
  ⟨rfl, rfl, rfl, rfl, rfl, rfl⟩

/-- C4: under a supported browser, every fatal initialization failure cause
(no adapter or device, no canvas, no context, shader compile failure) makes
initializeWebGPU resolve to false, keeps the game loop from starting, and
leaves render a permanent no-op; the Failed state is terminal. -/
theorem init_failure_is_terminal (env : Env)
    (hsup : env.webgpuSupported = true)
    (hfail : env.adapterAvailable = false ∨ env.deviceAvailable = false ∨
             env.canvasElem = none ∨ env.contextAvailable = false ∨
             env.shaderCompiles = false) :
    ∃ o : InitOutcome, initializeWebGPU env dataInit = .ok o ∧ o.success = false ∧
      startup env = .ok ⟨false, o.gpu, o.data⟩ ∧
      ∀ t : ℝ, render o.gpu o.data t = ⟨o.data, [], none⟩ := by
  cases hA : env.adapterAvailable with
  | false =>
    have hinit : initializeWebGPU env dataInit =
        .ok ⟨false, ⟨false, false, none, false, false, false, none, none, false⟩,
          dataInit, []⟩ := by
      simp [initializeWebGPU, hsup, hA, emptyGpu]
    exact ⟨_, hinit, rfl, by simp [startup, hinit],
      fun t => render_not_ready _ _ t (Or.inl rfl)⟩
  | true =>
    cases hD : env.deviceAvailable with
    | false =>
      have hinit : initializeWebGPU env dataInit =
          .ok ⟨false, ⟨true, false, none, false, false, false, none, none, false⟩,
            dataInit, []⟩ := by
        simp [initializeWebGPU, hsup, hA, hD, emptyGpu]
      exact ⟨_, hinit, rfl, by simp [startup, hinit],
        fun t => render_not_ready _ _ t (Or.inl rfl)⟩
    | true =>
      cases hC : env.canvasElem with
      | none =>
        have hinit : initializeWebGPU env dataInit =
            .ok ⟨false, ⟨true, true, none, false, false, false, none, none, false⟩,
              dataInit, []⟩ := by
          simp [initializeWebGPU, hsup, hA, hD, hC, emptyGpu]
        exact ⟨_, hinit, rfl, by simp [startup, hinit],
          fun t => render_not_ready _ _ t (Or.inr (Or.inl rfl))⟩
      | some elem =>
        cases hX : env.contextAvailable with
        | false =>
          have hinit : initializeWebGPU env dataInit =
              .ok ⟨false, ⟨true, true,
                some (onResize ⟨elem.attrWidth, elem.attrHeight⟩ elem.rectWidth
                  elem.rectHeight (if env.dpr = 0 then 1 else env.dpr)),
                false, false, false, none, none, false⟩, dataInit, []⟩ := by
            simp [initializeWebGPU, hsup, hA, hD, hC, hX, emptyGpu]
          exact ⟨_, hinit, rfl, by simp [startup, hinit],
            fun t => render_not_ready _ _ t (Or.inr (Or.inl rfl))⟩
        | true =>
          cases hS : env.shaderCompiles with
          | false =>
            have hinit : initializeWebGPU env dataInit =
                .ok ⟨false, ⟨true, true,
                  some (onResize ⟨elem.attrWidth, elem.attrHeight⟩ elem.rectWidth
                    elem.rectHeight (if env.dpr = 0 then 1 else env.dpr)),
                  true, true, false, some (bytesPerFloat * dataInit.vertices.length),
                  some SIZEOF_UNIFORMS, false⟩, dataInit,
                  [.queueWriteBuffer .vertex 0 dataInit.vertices,
                   .queueWriteBuffer .uniform 0 dataInit.uniforms.toList]⟩ := by
              simp [initializeWebGPU, hsup, hA, hD, hC, hX, hS, emptyGpu]
            exact ⟨_, hinit, rfl, by simp [startup, hinit],
              fun t => render_not_ready _ _ t (Or.inr (Or.inr (Or.inl rfl)))⟩
          | true =>
            rcases hfail with h | h | h | h | h
            · rw [hA] at h; exact Bool.noConfusion h
            · rw [hD] at h; exact Bool.noConfusion h
            · rw [hC] at h; exact Option.noConfusion h
            · rw [hX] at h; exact Bool.noConfusion h
            · rw [hS] at h; exact Bool.noConfusion h

/-- C4 witness: when shader compilation fails in an otherwise good environment,
initialization reports false, the loop does not start, and render stays a
no-op. -/
theorem init_failure_is_terminal_witness :
    ∃ o : InitOutcome, initializeWebGPU shaderFailEnv dataInit = .ok o ∧
      o.success = false ∧ startup shaderFailEnv = .ok ⟨false, o.gpu, o.data⟩ ∧
      ∀ t : ℝ, render o.gpu o.data t = ⟨o.data, [], none⟩ :=
  init_failure_is_terminal shaderFailEnv rfl (Or.inr (Or.inr (Or.inr (Or.inr rfl))))

/-- C8: the triangle data is the fixed literal array, is uploaded to the vertex
buffer exactly once during initialization, and no render call modifies the
vertex data or writes any device buffer other than the uniform buffer. -/
theorem vertex_data_uploaded_once (gpu : GpuState) (d : DataState) (t : ℝ) :
    dataInit.vertices = verticesInit ∧
    (∃ o : InitOutcome, initializeWebGPU goodEnv dataInit = .ok o ∧
      o.events.countP Event.isVertexWrite = 1 ∧ o.data.vertices = verticesInit) ∧
    (render gpu d t).data.vertices = d.vertices ∧
    (render gpu d t).events.countP Event.isVertexWrite = 0 ∧
    (∀ e ∈ (render gpu d t).events, Event.isWriteBuffer e = true →
      e.writeTarget = some BufferId.uniform) := by
  refine ⟨rfl, ⟨⟨true, readyGpu, dataInit, goodInitEvents⟩, init_goodEnv, rfl, rfl⟩,
    ?_, ?_, ?_⟩
  · obtain h | h := render_cases gpu d t <;> rw [h]
  · obtain h | h := render_cases gpu d t <;> rw [h] <;> rfl
  · obtain h | h := render_cases gpu d t <;> rw [h]
    · intro e he
      simp at he
    · intro e he hwri
      simp only [renderTrace, List.mem_cons, List.not_mem_nil, or_false] at he
      rcases he with rfl | rfl | rfl | rfl | rfl | rfl | rfl | rfl
      · rfl
      · exact Bool.noConfusion hwri
      · exact Bool.noConfusion hwri
      · exact Bool.noConfusion hwri
      · exact Bool.noConfusion hwri
      · exact Bool.noConfusion hwri
      · exact Bool.noConfusion hwri
      · exact Bool.noConfusion hwri

/-- C8 witness: a frame in the ready state leaves the vertex data unchanged and
issues no vertex buffer write. -/
theorem vertex_data_uploaded_once_witness :
    (render readyGpu dataInit 3).data.vertices = dataInit.vertices ∧
    (render readyGpu dataInit 3).events.countP Event.isVertexWrite = 0 :=
  ⟨(vertex_data_uploaded_once readyGpu dataInit 3).2.2.1,
   (vertex_data_uploaded_once readyGpu dataInit 3).2.2.2.1⟩

/-- C9: the uniform state starts as (0, 0) with two zero padding floats,
SIZEOF_UNIFORMS is 16 bytes, the uniform buffer is allocated with exactly that
size, every per-frame upload writes the full 4-float block at offset 0, the
padding floats stay zero, and after a frame at time pi / 2 the contents are
(0.3, 0, 0, 0). -/
theorem uniform_padding_and_allocation (gpu : GpuState) (d : DataState) (t : ℝ) :
    uniformsInit = ⟨0, 0, 0, 0⟩ ∧
    SIZEOF_UNIFORMS = 16 ∧
    (∀ u : Uniforms, bytesPerFloat * u.toList.length = 16) ∧
    (∃ o : InitOutcome, initializeWebGPU goodEnv dataInit = .ok o ∧
      o.gpu.uniformBuffer = some SIZEOF_UNIFORMS ∧
      (render o.gpu o.data (Real.pi / 2)).data.uniforms = ⟨0.3, 0, 0, 0⟩) ∧
    (∀ e ∈ (render gpu d t).events, Event.isWriteBuffer e = true →
      e = .queueWriteBuffer .uniform 0 (render gpu d t).data.uniforms.toList) ∧
    ((d.uniforms.pad0 = 0 ∧ d.uniforms.pad1 = 0) →
      (render gpu d t).data.uniforms.pad0 = 0 ∧
        (render gpu d t).data.uniforms.pad1 = 0) := by
  refine ⟨rfl, rfl, fun u => rfl, ?_, ?_, ?_⟩
  · refine ⟨⟨true, readyGpu, dataInit, goodInitEvents⟩, init_goodEnv, rfl, ?_⟩
    rw [render_ready readyGpu dataInit (Real.pi / 2) ⟨640, 480⟩ rfl rfl rfl rfl
      (by simp [readyGpu]) (by decide) (by decide)]
    simp only [renderUniforms, uniformAt, dataInit, uniformsInit]
    norm_num [Real.sin_pi_div_two, Real.cos_pi_div_two]
  · obtain h | h := render_cases gpu d t <;> rw [h]
    · intro e he
      simp at he
    · intro e he hwri
      simp only [renderTrace, List.mem_cons, List.not_mem_nil, or_false] at he
      rcases he with rfl | rfl | rfl | rfl | rfl | rfl | rfl | rfl
      · rfl
      · exact Bool.noConfusion hwri
      · exact Bool.noConfusion hwri
      · exact Bool.noConfusion hwri
      · exact Bool.noConfusion hwri
      · exact Bool.noConfusion hwri
      · exact Bool.noConfusion hwri
      · exact Bool.noConfusion hwri
  · intro hp
    obtain h | h := render_cases gpu d t <;> rw [h]
    · exact hp
    · exact hp

/-- C9 witness: a frame in the ready state from the initial data keeps both
padding floats zero. -/
theorem uniform_padding_and_allocation_witness :
    (render readyGpu dataInit 4).data.uniforms.pad0 = 0 ∧
    (render readyGpu dataInit 4).data.uniforms.pad1 = 0 :=
  (uniform_padding_and_allocation readyGpu dataInit 4).2.2.2.2.2 ⟨rfl, rfl⟩
